import Mathlib

/-!
Shallow embedding of `donotscan_manager.py`: the do-not-scan exemption rule
lifecycle engine.

The `Rule` and `Activity` records, the record-level transitions
(`Rule.reactivate`, `Rule.deactivate`, `Rule.true_up`), and the engine layer
(`Rules.get`, `Rules.search`, `Rules.list`, `Rules.activate`,
`Rules.deactivate`, `Rules.trueup`, `Rules.expiration_notification`,
`Rules.gen_donotscan`) are translated directly from the source.  The SQL
record store is modelled as an explicit list of rules (`Store`); the clock
(`datetime.date.today()` / `datetime.datetime.now()`) is passed explicitly as
a `Date` parameter; an operation that raises a Python exception is modelled
as returning `none`.

Two source lines are syntactically malformed Python
(`filter(Rule.id=rule_id)`, written in `get`, `activate`, `deactivate`
and `trueup`): the single possible repair `filter(Rule.id == rule_id)` is
what is embedded, as `firstWithId`.  Semantic (runtime) faults of the source
are embedded as they behave, not repaired; they are noted on the relevant
definitions.
-/

/-- Calendar date, as Python's `datetime.date`: year, month, day. -/
structure Date where
  year : Nat
  month : Nat
  day : Nat
deriving DecidableEq

/-- Date comparison `a <= b`, lexicographic on (year, month, day), as Python
compares `datetime.date` values. -/
def Date.le (a b : Date) : Bool :=
  decide (a.year < b.year) ||
    (decide (a.year = b.year) &&
      (decide (a.month < b.month) ||
        (decide (a.month = b.month) && decide (a.day ≤ b.day))))

/-- Gregorian leap-year rule, as `datetime` implements it. -/
def Date.isLeap (y : Nat) : Bool :=
  (y % 4 == 0 && y % 100 != 0) || y % 400 == 0

/-- Number of days in a month of a given year. -/
def Date.daysInMonth (y m : Nat) : Nat :=
  if m == 2 then (if Date.isLeap y then 29 else 28)
  else if m == 4 || m == 6 || m == 9 || m == 11 then 30
  else 31

/-- The day after a date, rolling over months and years. -/
def Date.succ (d : Date) : Date :=
  if d.day < Date.daysInMonth d.year d.month then ⟨d.year, d.month, d.day + 1⟩
  else if d.month < 12 then ⟨d.year, d.month + 1, 1⟩
  else ⟨d.year + 1, 1, 1⟩

/-- Date plus `n` days: `d + datetime.timedelta(n)`. -/
def Date.addDays (d : Date) : Nat → Date
  | 0 => d
  | n + 1 => Date.addDays (Date.succ d) n

/-- Left-pads a decimal numeral with zeros to the given width. -/
def padZero (width n : Nat) : String :=
  let s := toString n
  if s.length < width then String.mk (List.replicate (width - s.length) '0') ++ s
  else s

/-- ISO rendering `YYYY-MM-DD`, as `date.isoformat()`. -/
def Date.isoformat (d : Date) : String :=
  padZero 4 d.year ++ "-" ++ padZero 2 d.month ++ "-" ++ padZero 2 d.day

/-- One audit-trail entry, from class `Activity`: `event`, optional `info`,
and the creation timestamp (`datetime.datetime.now()` in `Activity.__init__`,
modelled at date granularity).  The storage-assigned `id` and the `rule_id`
back-reference are carried by the position of the entry inside its owning
rule's `activity` list. -/
structure Activity where
  event : String
  info : Option String
  date : Date
deriving DecidableEq

/-- One exemption rule, from class `Rule`.  `id` is assigned by storage
(column `Integer, primary_key=True`); `rule` is the do-not-scan pattern. -/
structure Rule where
  id : Nat
  rule : String
  ticket : String
  name : String
  email : String
  application : String
  reason : String
  permanent : Bool
  active : Bool
  created : Date
  expiration : Date
  activity : List Activity
deriving DecidableEq

/-- Embeds `Rule.__init__(rule, ticket, name, email, application, reason,
expiration=None, permanent=False)`.  `today` models the single clock instant
read twice in the source (`datetime.datetime.now()` for `created`,
`datetime.date.today()` for the default expiration).  No argument is
validated: the constructor always produces a rule, with `active = True`, the
storage id still unassigned (0 here), the default expiration Dec 31 of the
creation year for permanent rules and creation date + 14 days otherwise, and
the activity trail seeded with one `Created` entry. -/
def Rule.init (today : Date) (rule ticket name email application reason : String)
    (expiration : Option Date) (permanent : Bool) : Rule :=
  { id := 0
    rule := rule
    ticket := ticket
    name := name
    email := email
    application := application
    reason := reason
    permanent := permanent
    active := true
    created := today
    expiration :=
      match expiration with
      | some e => e
      | none =>
        if permanent then ⟨today.year, 12, 31⟩
        else Date.addDays today 14
    activity := [{ event := "Created", info := none, date := today }] }

/-- Embeds `Rule.reactivate`: sets `active = True` and appends one
`Re-Enabled` activity entry (timestamped `now`). -/
def Rule.reactivate (r : Rule) (now : Date) : Rule :=
  { r with
    active := true
    activity := r.activity ++ [{ event := "Re-Enabled", info := none, date := now }] }

/-- Embeds `Rule.deactivate`: sets `active = False` and appends one
`Disabled` activity entry (timestamped `now`). -/
def Rule.deactivate (r : Rule) (now : Date) : Rule :=
  { r with
    active := false
    activity := r.activity ++ [{ event := "Disabled", info := none, date := now }] }

/-- Embeds `Rule.true_up(expiration)`: replaces the expiration and appends
one `Modified` entry whose `info` renders the new date in ISO form. -/
def Rule.true_up (r : Rule) (now expiration : Date) : Rule :=
  { r with
    expiration := expiration
    activity := r.activity ++
      [{ event := "Modified"
         info := some ("Expiration set to " ++ expiration.isoformat)
         date := now }] }

/-- The record store backing the `Rules` middleware: the `rules` table as an
ordered list (insertion order, the order `query(Rule).all()` yields). -/
structure Store where
  rules : List Rule
deriving DecidableEq

/-- Embeds the query expression `session.query(Rule).filter(Rule.id ==
rule_id).first()` used throughout the `Rules` class: the first stored rule
with the given id, `none` when there is none (SQL `first()` returns `None`,
not an error). -/
def firstWithId (rs : List Rule) (rule_id : Nat) : Option Rule :=
  (rs.filter (fun r => r.id == rule_id)).head?

/-- Applies `f` to the first list element satisfying `p`, leaving everything
else in place: the effect of mutating the single ORM object returned by
`first()` and committing. -/
def updateFirst (p : Rule → Bool) (f : Rule → Rule) : List Rule → List Rule
  | [] => []
  | r :: rs => if p r then f r :: rs else r :: updateFirst p f rs

namespace Rules

/-- Embeds `Rules.add(obj)`: persists a constructed rule; the
integer primary key is assigned by storage on insert. -/
def add (s : Store) (r : Rule) : Store :=
  { rules := s.rules ++ [{ r with id := (s.rules.foldl (fun m q => max m q.id) 0) + 1 }] }

/-- Embeds `Rules.get(rule_id)`: `query(Rule).filter(Rule.id ==
rule_id).first()`; returns the rule, or `None` (here `none`) as an ordinary
result when no rule has the id.  No exception is raised on a missing id. -/
def get (s : Store) (rule_id : Nat) : Option Rule :=
  firstWithId s.rules rule_id

/-- Searchable columns of the `rules` table, by SQL column name, for the
keyword-argument search criteria. -/
def ruleField (r : Rule) (field : String) : Option String :=
  if field == "rule" then some r.rule
  else if field == "ticket" then some r.ticket
  else if field == "name" then some r.name
  else if field == "email" then some r.email
  else if field == "application" then some r.application
  else if field == "reason" then some r.reason
  else none

/-- A rule matches the criteria when every given field/value pair matches
exactly (AND semantics, as `and_` combines equality criteria). -/
def matchesAll (args : List (String × String)) (r : Rule) : Bool :=
  args.all (fun p => ruleField r p.1 == some p.2)

/-- Embeds `Rules.search(**args)`.  The source binds `query` only inside
`if len(args) == 1:` and `if len(args) > 1:`; with zero criteria neither
branch runs and the final `query.all()` reads an unbound local, raising
`UnboundLocalError` — modelled here by the initial `none` surviving to the
result.  With at least one criterion the rules matching all pairs are
returned. -/
def search (s : Store) (args : List (String × String)) : Option (List Rule) :=
  let query : Option (List Rule) := none
  let query := if args.length == 1 then some (s.rules.filter (matchesAll args)) else query
  let query := if args.length > 1 then some (s.rules.filter (matchesAll args)) else query
  query

/-- Embeds `Rules.list(active=True, inactive=True)`:
`query(Rule).filter(Rule.active.in_([active, not(inactive)]))` — a stored
rule is returned exactly when its `active` flag equals `active` or equals
`not inactive`. -/
def list (s : Store) (active inactive : Bool) : List Rule :=
  s.rules.filter (fun r => r.active == active || r.active == !inactive)

/-- Embeds `Rules.activate(rule_id)`: loads the first rule with the id and
sets `rule.active = True`, committing.  No activity entry is appended (the
engine does not call `Rule.reactivate`).  When no rule has the id, `first()`
gives `None` and the attribute assignment raises — modelled as `none`. -/
def activate (s : Store) (rule_id : Nat) : Option Store :=
  match firstWithId s.rules rule_id with
  | none => none
  | some _ =>
    some { rules := updateFirst (fun r => r.id == rule_id)
                      (fun r => { r with active := true }) s.rules }

/-- Embeds `Rules.deactivate(rule_id)`: loads the first rule with the id and
sets `rule.active = False`, committing.  No activity entry is appended (the
engine does not call `Rule.deactivate`).  When no rule has the id, the
attribute assignment on `None` raises — modelled as `none`. -/
def deactivate (s : Store) (rule_id : Nat) : Option Store :=
  match firstWithId s.rules rule_id with
  | none => none
  | some _ =>
    some { rules := updateFirst (fun r => r.id == rule_id)
                      (fun r => { r with active := false }) s.rules }

/-- The renewal date `Rules.trueup` computes into its local `expiry`:
December 31 of next year when `today.month > 6`, of this year otherwise. -/
def trueupExpiry (today : Date) : Date :=
  if today.month > 6 then ⟨today.year + 1, 12, 31⟩ else ⟨today.year, 12, 31⟩

/-- Embeds `Rules.trueup(rule_id)`.  The source loads the rule and computes
`expiry` (see `trueupExpiry`), but the assignment line is
`rule.expiration = date`: `date` is bound nowhere (the module imports only
`datetime`), so every call raises `NameError` before any mutation, the
computed `expiry` is never used, and `session.commit()` is never reached.
The raised exception is modelled as `none`; the store is never changed. -/
def trueup (today : Date) (s : Store) (rule_id : Nat) : Option Store :=
  let _rule := firstWithId s.rules rule_id
  let _expiry := trueupExpiry today
  none

/-- Embeds `Rules.expiration_notification(rule_id)`: loads the rule and
attempts one email to the requester (`rule.email`) with the
ticket/application/reason/pattern details.  `__send_email` swallows every
transport failure (bare `except:` returning `'error'`), so exactly one
attempt is made per call and the call itself never fails once the rule is
found.  A missing id makes the message construction dereference `None`,
which raises — modelled as `none`.  The result records the attempt as
(rule id, recipient address). -/
def expiration_notification (s : Store) (rule_id : Nat) : Option (Nat × String) :=
  match firstWithId s.rules rule_id with
  | none => none
  | some r => some (rule_id, r.email)

/-- The loop of `Rules.gen_donotscan` over the snapshot returned by
`self.list()`: threads the evolving store, the accumulated output string and
the list of notification attempts.  For each snapshot rule: inactive rules
are skipped; an active rule with `expiration >= today` appends
`rule.rule + "\n"` to the output; an active expired rule triggers
`expiration_notification(rule.id)` then `deactivate(rule.id)` against the
current store. -/
def genLoop (today : Date) :
    List Rule → Store → String → List (Nat × String) →
      Option (String × Store × List (Nat × String))
  | [], s, out, notes => some (out, s, notes)
  | r :: rest, s, out, notes =>
    if r.active then
      if Date.le today r.expiration then
        genLoop today rest s (out ++ r.rule ++ "\n") notes
      else
        match expiration_notification s r.id with
        | none => none
        | some note =>
          match deactivate s r.id with
          | none => none
          | some s1 => genLoop today rest s1 out (notes ++ [note])
    else
      genLoop today rest s out notes

/-- Embeds `Rules.gen_donotscan()`: iterates over the detached snapshot
`self.list()` (both flags defaulted to `True`), accumulating the newline-
terminated patterns of active unexpired rules, notifying and deactivating
active expired ones.  Returns the output string, the final store, and the
notification attempts, or `none` if an iteration step raised. -/
def gen_donotscan (today : Date) (s : Store) :
    Option (String × Store × List (Nat × String)) :=
  genLoop today (Rules.list s true true) s "" []

end Rules

/-- A rule the generation pass treats as expired: still flagged active but
with expiration strictly before today. -/
def expiredActive (today : Date) (r : Rule) : Bool :=
  r.active && !(Date.le today r.expiration)

/-- The per-rule effect of one generation pass on the store: an active
expired rule has its flag cleared (and nothing else changed — in particular
no activity appended, mirroring `Rules.deactivate`); every other rule is
untouched. -/
def deactExpired (today : Date) (r : Rule) : Rule :=
  if expiredActive today r then { r with active := false } else r

/-- The output string one generation pass accumulates over a rule list:
pattern plus newline for each active unexpired rule, in list order. -/
def genOutStr (today : Date) : List Rule → String
  | [] => ""
  | r :: rest =>
    (if r.active && Date.le today r.expiration then r.rule ++ "\n" else "") ++
      genOutStr today rest

/-- The notification attempts one generation pass makes over a rule list:
one (id, requester email) pair per active expired rule, in list order. -/
def genNotes (today : Date) : List Rule → List (Nat × String)
  | [] => []
  | r :: rest =>
    (if expiredActive today r then [(r.id, r.email)] else []) ++ genNotes today rest

/-- The fixed current date used by the concrete evaluations below. -/
def today0 : Date := ⟨2026, 10, 12⟩

/-- A rule flagged active whose expiration (2026-10-11) lies strictly before
`today0`. -/
def c1Rule : Rule :=
  { id := 1
    rule := "192.168.10.0/24"
    ticket := "TCK-101"
    name := "Alice"
    email := "alice@example.com"
    application := "Billing"
    reason := "maintenance window"
    permanent := false
    active := true
    created := ⟨2026, 9, 27⟩
    expiration := ⟨2026, 10, 11⟩
    activity := [{ event := "Created", info := none, date := ⟨2026, 9, 27⟩ }] }

/-- A store holding only `c1Rule`. -/
def c1Store : Store := ⟨[c1Rule]⟩

/-- An inactive rule with one Created entry, for exercising the engine-level
transitions. -/
def c4Rule : Rule :=
  { id := 1
    rule := "10.4.0.0/16"
    ticket := "TCK-104"
    name := "Bob"
    email := "bob@example.com"
    application := "Payroll"
    reason := "legacy host"
    permanent := true
    active := false
    created := ⟨2026, 1, 15⟩
    expiration := ⟨2026, 12, 31⟩
    activity := [{ event := "Created", info := none, date := ⟨2026, 1, 15⟩ }] }

/-- A store holding only `c4Rule`. -/
def c4Store : Store := ⟨[c4Rule]⟩

/-- An inactive rule, to exercise `Rules.list` with both flags false. -/
def c6Rule : Rule :=
  { id := 6
    rule := "172.16.0.0/12"
    ticket := "TCK-106"
    name := "Carol"
    email := "carol@example.com"
    application := "HR"
    reason := "scanner breaks app"
    permanent := false
    active := false
    created := ⟨2026, 5, 1⟩
    expiration := ⟨2026, 5, 15⟩
    activity := [{ event := "Created", info := none, date := ⟨2026, 5, 1⟩ }] }

/-- A store holding only the inactive `c6Rule`. -/
def c6Store : Store := ⟨[c6Rule]⟩

/-- A stored rule with id 1, for exercising `Rules.get`. -/
def c8Rule : Rule :=
  { id := 1
    rule := "10.8.8.8"
    ticket := "TCK-108"
    name := "Dave"
    email := "dave@example.com"
    application := "DNS"
    reason := "appliance"
    permanent := false
    active := true
    created := ⟨2026, 10, 1⟩
    expiration := ⟨2026, 10, 15⟩
    activity := [{ event := "Created", info := none, date := ⟨2026, 10, 1⟩ }] }

/-- A store holding only `c8Rule` (id 1; no rule has id 2). -/
def c8Store : Store := ⟨[c8Rule]⟩

/-- An active expired rule (id 1) for the idempotence witness. -/
def w2RuleExpired : Rule :=
  { id := 1
    rule := "10.2.1.0/24"
    ticket := "TCK-201"
    name := "Erin"
    email := "erin@example.com"
    application := "CRM"
    reason := "fragile stack"
    permanent := false
    active := true
    created := ⟨2026, 9, 1⟩
    expiration := ⟨2026, 10, 1⟩
    activity := [{ event := "Created", info := none, date := ⟨2026, 9, 1⟩ }] }

/-- An active unexpired rule (id 2) for the idempotence witness. -/
def w2RuleFresh : Rule :=
  { id := 2
    rule := "10.2.2.0/24"
    ticket := "TCK-202"
    name := "Frank"
    email := "frank@example.com"
    application := "ERP"
    reason := "vendor requirement"
    permanent := true
    active := true
    created := ⟨2026, 2, 1⟩
    expiration := ⟨2026, 12, 31⟩
    activity := [{ event := "Created", info := none, date := ⟨2026, 2, 1⟩ }] }

/-- A two-rule store with distinct primary keys for the idempotence
witness. -/
def w2Store : Store := ⟨[w2RuleExpired, w2RuleFresh]⟩

/-! Helper lemmas. -/

/-- Unfolding lemma: the generation loop on an empty snapshot returns its
accumulators. -/
theorem genLoop_nil (today : Date) (s : Store) (out : String)
    (notes : List (Nat × String)) :
    Rules.genLoop today [] s out notes = some (out, s, notes) := rfl

/-- Unfolding lemma: one step of the generation loop. -/
theorem genLoop_cons (today : Date) (r : Rule) (rest : List Rule) (s : Store)
    (out : String) (notes : List (Nat × String)) :
    Rules.genLoop today (r :: rest) s out notes =
      if r.active then
        if Date.le today r.expiration then
          Rules.genLoop today rest s (out ++ r.rule ++ "\n") notes
        else
          match Rules.expiration_notification s r.id with
          | none => none
          | some note =>
            match Rules.deactivate s r.id with
            | none => none
            | some s1 => Rules.genLoop today rest s1 out (notes ++ [note])
      else
        Rules.genLoop today rest s out notes := rfl

/-- With both flags true, `Rules.list` returns the whole store (every flag
value is in the two-element filter set). -/
theorem list_true_true (s : Store) : Rules.list s true true = s.rules := by
  unfold Rules.list
  refine List.filter_eq_self.mpr ?_
  intro r _
  cases r.active <;> simp

/-- The first-match query finds `r` when nothing before it matches and
`r`'s id is the one sought. -/
theorem firstWithId_append_cons (done rest : List Rule) (r : Rule) (i : Nat)
    (h : ∀ d ∈ done, d.id ≠ i) (hr : r.id = i) :
    firstWithId (done ++ r :: rest) i = some r := by
  induction done with
  | nil =>
    simp only [List.nil_append, firstWithId, List.filter]
    have : (r.id == i) = true := by simp [hr]
    simp [this]
  | cons d ds ih =>
    have hd : (d.id == i) = false := by
      simp only [beq_eq_false_iff_ne, ne_eq]
      exact h d (List.mem_cons_self d ds)
    have hds : ∀ x ∈ ds, x.id ≠ i := fun x hx => h x (List.mem_cons_of_mem d hx)
    simp only [List.cons_append, firstWithId, List.filter, hd] at ih ⊢
    exact ih hds

/-- `updateFirst` skips an unmatched prefix and rewrites the first match. -/
theorem updateFirst_append_cons (p : Rule → Bool) (f : Rule → Rule)
    (done rest : List Rule) (r : Rule)
    (h : ∀ d ∈ done, p d = false) (hr : p r = true) :
    updateFirst p f (done ++ r :: rest) = done ++ f r :: rest := by
  induction done with
  | nil => simp [updateFirst, hr]
  | cons d ds ih =>
    have hd : p d = false := h d (List.mem_cons_self d ds)
    have hds : ∀ x ∈ ds, p x = false := fun x hx => h x (List.mem_cons_of_mem d hx)
    simp [updateFirst, hd, ih hds]

/-- Characterization of the generation loop: when the stored primary keys
are distinct and the store is split as processed prefix plus pending
snapshot, the loop succeeds, emits the patterns of the active unexpired
pending rules, clears the active flag of the active expired pending rules
(touching nothing else), and attempts one notification per active expired
pending rule. -/
theorem genLoop_char (today : Date) :
    ∀ (pending done : List Rule) (out : String) (notes : List (Nat × String)),
      ((done ++ pending).map (fun r => r.id)).Nodup →
      Rules.genLoop today pending ⟨done ++ pending⟩ out notes =
        some (out ++ genOutStr today pending,
              ⟨done ++ pending.map (deactExpired today)⟩,
              notes ++ genNotes today pending) := by
  intro pending
  induction pending with
  | nil =>
    intro done out notes _
    simp [genLoop_nil, genOutStr, genNotes]
  | cons r rest ih =>
    intro done out notes h
    rw [genLoop_cons]
    by_cases hact : r.active = true
    · by_cases hle : Date.le today r.expiration = true
      · -- active and unexpired: the pattern is emitted
        have h' : (((done ++ [r]) ++ rest).map (fun q => q.id)).Nodup := by
          simpa [List.append_assoc] using h
        have step := ih (done ++ [r]) (out ++ r.rule ++ "\n") notes h'
        have hda : deactExpired today r = r := by
          simp [deactExpired, expiredActive, hact, hle]
        simp only [hact, hle, if_true]
        rw [show done ++ r :: rest = (done ++ [r]) ++ rest by simp]
        rw [step]
        simp [genOutStr, genNotes, hact, hle, hda, expiredActive,
          String.append_assoc, List.append_assoc]
      · -- active and expired: one notification, then engine deactivation
        have hle' : Date.le today r.expiration = false := by simpa using hle
        have hdone : ∀ d ∈ done, d.id ≠ r.id := by
          intro d hd hEq
          rw [List.map_append] at h
          have hdis := (List.nodup_append.mp h).2.2
          exact hdis (List.mem_map_of_mem _ hd) (by simp [hEq])
        have hfind : firstWithId (done ++ r :: rest) r.id = some r :=
          firstWithId_append_cons done rest r r.id hdone rfl
        have hnotif : Rules.expiration_notification ⟨done ++ r :: rest⟩ r.id
            = some (r.id, r.email) := by
          simp [Rules.expiration_notification, hfind]
        have hup : updateFirst (fun q => q.id == r.id)
              (fun q => { q with active := false }) (done ++ r :: rest)
            = done ++ { r with active := false } :: rest := by
          apply updateFirst_append_cons
          · intro d hd
            simpa using hdone d hd
          · simp
        have hdeact : Rules.deactivate ⟨done ++ r :: rest⟩ r.id
            = some ⟨done ++ { r with active := false } :: rest⟩ := by
          simp [Rules.deactivate, hfind, hup]
        have h' : (((done ++ [({ r with active := false } : Rule)]) ++ rest).map
              (fun q => q.id)).Nodup := by
          simpa [List.append_assoc] using h
        have step := ih (done ++ [({ r with active := false } : Rule)]) out
          (notes ++ [(r.id, r.email)]) h'
        have hda : deactExpired today r = { r with active := false } := by
          simp [deactExpired, expiredActive, hact, hle']
        simp only [hact, hle', if_true, Bool.false_eq_true, if_false, hnotif, hdeact]
        rw [show done ++ { r with active := false } :: rest
            = (done ++ [{ r with active := false }]) ++ rest by simp]
        rw [step]
        simp [genOutStr, genNotes, hact, hle', hda, expiredActive,
          String.empty_append, List.append_assoc]
    · -- inactive: skipped entirely
      have hact' : r.active = false := by simpa using hact
      have h' : (((done ++ [r]) ++ rest).map (fun q => q.id)).Nodup := by
        simpa [List.append_assoc] using h
      have step := ih (done ++ [r]) out notes h'
      have hda : deactExpired today r = r := by
        simp [deactExpired, expiredActive, hact']
      simp only [hact', Bool.false_eq_true, if_false]
      rw [show done ++ r :: rest = (done ++ [r]) ++ rest by simp]
      rw [step]
      simp [genOutStr, genNotes, hact', hda, expiredActive, String.empty_append,
        List.append_assoc]

/-- Characterization of a full generation pass on a store with distinct
primary keys. -/
theorem gen_donotscan_char (today : Date) (s : Store)
    (h : (s.rules.map (fun r => r.id)).Nodup) :
    Rules.gen_donotscan today s =
      some (genOutStr today s.rules, ⟨s.rules.map (deactExpired today)⟩,
            genNotes today s.rules) := by
  obtain ⟨rs⟩ := s
  have hc := genLoop_char today rs [] "" [] (by simpa using h)
  simpa [Rules.gen_donotscan, list_true_true, String.empty_append] using hc

/-- The generation pass never changes a rule's id. -/
theorem deactExpired_id (today : Date) (r : Rule) :
    (deactExpired today r).id = r.id := by
  unfold deactExpired; split <;> rfl

/-- After the generation pass no rule is still both active and expired. -/
theorem expiredActive_deactExpired (today : Date) (r : Rule) :
    expiredActive today (deactExpired today r) = false := by
  cases hv : expiredActive today r
  · simp [deactExpired, hv]
  · have hd : deactExpired today r = { r with active := false } := by
      simp [deactExpired, hv]
    rw [hd]
    simp [expiredActive]

/-- The generation pass leaves the emitted output unchanged: deactivating
the expired rules removes nothing that was being emitted. -/
theorem genOutStr_map_deact (today : Date) (rs : List Rule) :
    genOutStr today (rs.map (deactExpired today)) = genOutStr today rs := by
  induction rs with
  | nil => rfl
  | cons r rest ih =>
    simp only [List.map_cons, genOutStr, ih]
    congr 1
    cases hact : r.active
    · simp [deactExpired, expiredActive, hact]
    · cases hle : Date.le today r.expiration
      · simp [deactExpired, expiredActive, hact, hle]
      · simp [deactExpired, expiredActive, hact, hle]

/-- After one generation pass there is nothing left to notify. -/
theorem genNotes_map_deact (today : Date) (rs : List Rule) :
    genNotes today (rs.map (deactExpired today)) = [] := by
  induction rs with
  | nil => rfl
  | cons r rest ih =>
    simp [genNotes, expiredActive_deactExpired, ih]

/-! Claim theorems. -/

/-- Claim C1 (code divergence exhibited): for the active rule `c1Rule` whose
expiration (2026-10-11) is strictly before `today0` (2026-10-12), one
generation pass omits its pattern from the output (the output is empty),
attempts exactly one expiration notification to the requester, and clears
the active flag — but the stored activity trail is unchanged: the engine's
`Rules.deactivate` never appends the `Disabled` entry the claim requires
(it bypasses `Rule.deactivate`), so the rule had and keeps a trail with no
`Disabled` event. -/
theorem C1_expired_rule_generation_eval :
    Rules.gen_donotscan today0 c1Store =
      some ("", ⟨[{ c1Rule with active := false }]⟩, [(1, "alice@example.com")]) ∧
    ({ c1Rule with active := false } : Rule).activity = c1Rule.activity ∧
    (∀ e ∈ c1Rule.activity, e.event ≠ "Disabled") := by
  refine ⟨by decide, rfl, by decide⟩

/-- Claim C2: for every store with distinct primary keys and a fixed current
date, running `gen_donotscan` twice with no intervening writes yields the
identical output string on the second run and zero notification attempts on
the second run. -/
theorem C2_generate_idempotent (today : Date) (s : Store)
    (h : (s.rules.map (fun r => r.id)).Nodup) :
    ∃ out s1 notes1 s2,
      Rules.gen_donotscan today s = some (out, s1, notes1) ∧
      Rules.gen_donotscan today s1 = some (out, s2, ([] : List (Nat × String))) := by
  refine ⟨genOutStr today s.rules, ⟨s.rules.map (deactExpired today)⟩,
    genNotes today s.rules,
    ⟨(s.rules.map (deactExpired today)).map (deactExpired today)⟩,
    gen_donotscan_char today s h, ?_⟩
  have hmap : ∀ (l : List Rule),
      (l.map (deactExpired today)).map (fun r => r.id) = l.map (fun r => r.id) := by
    intro l
    induction l with
    | nil => rfl
    | cons a t ih => simp [ih, deactExpired_id]
  have h1 : ((s.rules.map (deactExpired today)).map (fun r => r.id)).Nodup := by
    rw [hmap]
    exact h
  have h2 := gen_donotscan_char today ⟨s.rules.map (deactExpired today)⟩ h1
  rw [h2, genOutStr_map_deact, genNotes_map_deact]

/-- Witness for C2 at a concrete two-rule store (one expired active rule,
one fresh active rule), discharging the distinct-primary-key hypothesis. -/
theorem C2_generate_idempotent_witness :
    ((w2Store.rules.map (fun r => r.id)).Nodup) ∧
    (∃ out s1 notes1 s2,
      Rules.gen_donotscan today0 w2Store = some (out, s1, notes1) ∧
      Rules.gen_donotscan today0 s1 = some (out, s2, ([] : List (Nat × String)))) :=
  ⟨by decide, C2_generate_idempotent today0 w2Store (by decide)⟩

/-- Claim C3: a rule constructed without an explicit expiration defaults to
creation date + 14 days when not permanent, and to December 31 of the
creation year when permanent. -/
theorem C3_default_expiration (today : Date) (pat t n e a re : String) :
    (Rule.init today pat t n e a re none false).expiration =
      Date.addDays (Rule.init today pat t n e a re none false).created 14 ∧
    (Rule.init today pat t n e a re none true).expiration =
      ⟨(Rule.init today pat t n e a re none true).created.year, 12, 31⟩ := by
  constructor
  · simp only [Rule.init, Bool.false_eq_true, if_false]
  · simp only [Rule.init, if_true]

/-- Claim C4 (code divergence exhibited): the engine-level transitions do
not extend the activity trail.  `Rules.activate` on the stored rule flips
the flag to true but returns the rule with its activity list unchanged
(no `Re-Enabled` entry, count += 0, not += 1); `Rules.deactivate` likewise
appends nothing; and `Rules.trueup` fails outright (unbound name `date`),
appending nothing. -/
theorem C4_engine_transitions_append_no_activity :
    Rules.activate c4Store 1 = some ⟨[{ c4Rule with active := true }]⟩ ∧
    ({ c4Rule with active := true } : Rule).activity = c4Rule.activity ∧
    Rules.deactivate c4Store 1 = some ⟨[{ c4Rule with active := false }]⟩ ∧
    ({ c4Rule with active := false } : Rule).activity = c4Rule.activity ∧
    Rules.trueup today0 c4Store 1 = none := by
  refine ⟨by decide, rfl, by decide, rfl, rfl⟩

/-- Claim C5 (code divergence exhibited): `Rules.trueup` never sets any
expiration.  The source computes the renewal date into `expiry` but then
executes `rule.expiration = date` with `date` an unbound name, so every
call raises `NameError` before mutating the store: for every current date,
store and id the operation fails and no rule is updated. -/
theorem C5_trueup_never_updates (today : Date) (s : Store) (rule_id : Nat) :
    Rules.trueup today s rule_id = none := rfl

/-- Claim C6, counterexample: calling `Rules.list` with both flags false on
a store holding one inactive rule returns that rule — not the empty set the
claim requires (the filter set `[active, not inactive]` degenerates to
`[false, true]`, matching everything). -/
theorem C6_list_false_false_returns_all :
    c6Rule.active = false ∧ Rules.list c6Store false false = [c6Rule] := by
  refine ⟨rfl, by decide⟩

/-- Claim C6 as amended: `Rules.list` returns the rules whose active flag
equals `active` or equals `not inactive`; so (true, true) yields all rules,
(true, false) only active rules, (false, true) only inactive rules, and
(false, false) again all rules — not the empty set. -/
theorem C6_list_flag_semantics (s : Store) :
    Rules.list s true true = s.rules ∧
    Rules.list s true false = s.rules.filter (fun r => r.active) ∧
    Rules.list s false true = s.rules.filter (fun r => !r.active) ∧
    Rules.list s false false = s.rules := by
  refine ⟨list_true_true s, ?_, ?_, ?_⟩
  · unfold Rules.list
    apply List.filter_congr
    intro r _
    cases r.active <;> simp
  · unfold Rules.list
    apply List.filter_congr
    intro r _
    cases r.active <;> simp
  · unfold Rules.list
    refine List.filter_eq_self.mpr ?_
    intro r _
    cases r.active <;> simp

/-- Claim C7 (code divergence exhibited): rule creation with an empty
pattern does not fail — no validation exists — and a full `Rule` record is
constructed, active, with its pattern the empty string and a seeded
`Created` entry. -/
theorem C7_empty_pattern_rule_constructed :
    Rule.init today0 "" "TCK-7" "Grace" "grace@example.com" "Web" "test" none false =
      { id := 0, rule := "", ticket := "TCK-7", name := "Grace",
        email := "grace@example.com", application := "Web", reason := "test",
        permanent := false, active := true, created := today0,
        expiration := ⟨2026, 10, 26⟩,
        activity := [{ event := "Created", info := none, date := today0 }] } := by
  decide

/-- When no stored rule carries the id, the first-match query yields
nothing. -/
theorem firstWithId_of_forall_ne (i : Nat) (rs : List Rule)
    (h : ∀ r ∈ rs, r.id ≠ i) : firstWithId rs i = none := by
  induction rs with
  | nil => rfl
  | cons a t ih =>
    have ha : (a.id == i) = false := by simpa using h a (List.mem_cons_self a t)
    simp only [firstWithId, List.filter, ha] at ih ⊢
    exact ih fun x hx => h x (List.mem_cons_of_mem a hx)

/-- When some stored rule carries the id, the first-match query yields a
stored rule carrying it. -/
theorem firstWithId_mem_of_exists (i : Nat) (rs : List Rule) :
    ∀ r ∈ rs, r.id = i → ∃ x, firstWithId rs i = some x ∧ x.id = i ∧ x ∈ rs := by
  induction rs with
  | nil => intro r hr; cases hr
  | cons a t ih =>
    intro r hr hri
    by_cases ha : (a.id == i) = true
    · refine ⟨a, ?_, by simpa using ha, List.mem_cons_self a t⟩
      simp [firstWithId, List.filter, ha]
    · have ha' : (a.id == i) = false := by simpa using ha
      have hr' : r ∈ t := by
        rcases List.mem_cons.mp hr with h1 | h1
        · subst h1
          simp [hri] at ha'
        · exact h1
      obtain ⟨x, hx1, hx2, hx3⟩ := ih r hr' hri
      refine ⟨x, ?_, hx2, List.mem_cons_of_mem a hx3⟩
      simpa [firstWithId, List.filter, ha'] using hx1

/-- Claim C8, counterexample: on a store with no rule of id 1, `Rules.get`
returns `none` — the Python `None` that `query.first()` yields — as an
ordinary successful result; no `NotFoundError` exists anywhere in the
program, so the lookup does not fail. -/
theorem C8_get_missing_id_returns_none : Rules.get ⟨[]⟩ 1 = none := rfl

/-- Claim C8 as amended: `Rules.get` returns a stored rule with the
requested id when one exists, and returns `None` (an ordinary absent
result, not a raised `NotFoundError`) when none exists. -/
theorem C8_get_found_or_none (s : Store) (i : Nat) :
    ((∀ r ∈ s.rules, r.id ≠ i) → Rules.get s i = none) ∧
    (∀ r ∈ s.rules, r.id = i →
      ∃ x, Rules.get s i = some x ∧ x.id = i ∧ x ∈ s.rules) := by
  constructor
  · intro h
    exact firstWithId_of_forall_ne i s.rules h
  · intro r hr hri
    exact firstWithId_mem_of_exists i s.rules r hr hri

/-- Witness for C8 as amended, at a one-rule store: id 1 is found, id 2
yields `none`. -/
theorem C8_get_found_or_none_witness :
    (∃ x, Rules.get c8Store 1 = some x ∧ x.id = 1 ∧ x ∈ c8Store.rules) ∧
    Rules.get c8Store 2 = none :=
  ⟨(C8_get_found_or_none c8Store 1).2 c8Rule (by decide) rfl,
   (C8_get_found_or_none c8Store 2).1 (by decide)⟩

/-- Claim C9: the record-level transitions `Rule.reactivate` and
`Rule.deactivate` modify only the active flag and append exactly one
activity entry (`Re-Enabled` resp. `Disabled`); every other field —
pattern, ticket, requester name, requester email, application, reason,
permanent, created, expiration, and the storage id — is unchanged, and the
existing activity entries are preserved in place. -/
theorem C9_record_transition_frame (r : Rule) (now : Date) :
    (r.reactivate now).active = true ∧
    (r.reactivate now).activity =
      r.activity ++ [{ event := "Re-Enabled", info := none, date := now }] ∧
    (r.deactivate now).active = false ∧
    (r.deactivate now).activity =
      r.activity ++ [{ event := "Disabled", info := none, date := now }] ∧
    (r.reactivate now).id = r.id ∧ (r.reactivate now).rule = r.rule ∧
    (r.reactivate now).ticket = r.ticket ∧ (r.reactivate now).name = r.name ∧
    (r.reactivate now).email = r.email ∧
    (r.reactivate now).application = r.application ∧
    (r.reactivate now).reason = r.reason ∧
    (r.reactivate now).permanent = r.permanent ∧
    (r.reactivate now).created = r.created ∧
    (r.reactivate now).expiration = r.expiration ∧
    (r.deactivate now).id = r.id ∧ (r.deactivate now).rule = r.rule ∧
    (r.deactivate now).ticket = r.ticket ∧ (r.deactivate now).name = r.name ∧
    (r.deactivate now).email = r.email ∧
    (r.deactivate now).application = r.application ∧
    (r.deactivate now).reason = r.reason ∧
    (r.deactivate now).permanent = r.permanent ∧
    (r.deactivate now).created = r.created ∧
    (r.deactivate now).expiration = r.expiration :=
  ⟨rfl, rfl, rfl, rfl, rfl, rfl, rfl, rfl, rfl, rfl, rfl, rfl, rfl, rfl,
   rfl, rfl, rfl, rfl, rfl, rfl, rfl, rfl, rfl, rfl⟩

/-- Claim C10: `Rules.search` invoked with zero criteria returns no result
set — neither query-binding branch runs, so the final read of the query
fails (the source raises `UnboundLocalError`), for every store; and being a
pure read, the operation changes no store state. -/
theorem C10_search_no_criteria_fails (s : Store) :
    Rules.search s [] = none := rfl
